import Mathlib

/-!
Verification of the NYC taxi dashboard's data pipeline (`app.py`).

The pipeline (`load_data`) fetches a trip dataset and a zone lookup table,
samples 150000 trip rows with a fixed seed, drops rows with non-positive
distance or fare, parses the timestamp columns, derives hour / weekday /
duration columns, left-joins zone metadata on the pickup location id and
finally maps the integer payment codes to labels.  The dashboard then filters
the enriched table by date range, hour range and payment-type membership and
aggregates it by zone and by payment type.

Timestamps are modelled as seconds since the Unix epoch (`Int`); a raw
timestamp field is recorded as its parse result (`Option Int`, `none` for an
unparseable field).  Monetary and distance columns are modelled as `ℚ`.
-/

/-- One row of the raw trip dataset after the fixed column projection
(`pd.read_parquet(taxi_url, columns=[...])`, app.py lines 13-25).  A
timestamp field holds `some t` when the field parses to the timestamp `t`
(seconds since the Unix epoch) and `none` when it is unparseable. -/
structure RawTrip where
  tpep_pickup_datetime : Option Int
  tpep_dropoff_datetime : Option Int
  trip_distance : ℚ
  fare_amount : ℚ
  total_amount : ℚ
  payment_type : Int
  PULocationID : Int
deriving Repr, DecidableEq

/-- One row of the zone lookup table (`pd.read_csv(zone_url)`, app.py
line 30). -/
structure Zone where
  LocationID : Int
  Borough : String
  Zone : String
  service_zone : String
deriving Repr, DecidableEq

/-- The two remote resources `load_data` consumes. -/
structure SourceData where
  trips : List RawTrip
  zones : List Zone
deriving Repr, DecidableEq

/-- A trip row after `pd.to_datetime` succeeded on both timestamp columns
(app.py lines 36-37). -/
structure ParsedTrip where
  tpep_pickup_datetime : Int
  tpep_dropoff_datetime : Int
  trip_distance : ℚ
  fare_amount : ℚ
  total_amount : ℚ
  payment_type : Int
  PULocationID : Int
deriving Repr, DecidableEq

/-- A trip row with the derived columns of app.py lines 39-44. -/
structure DerivedTrip where
  tpep_pickup_datetime : Int
  tpep_dropoff_datetime : Int
  trip_distance : ℚ
  fare_amount : ℚ
  total_amount : ℚ
  payment_type : Int
  PULocationID : Int
  pickup_hour : Int
  pickup_day_of_week : String
  trip_duration_minutes : ℚ
deriving Repr, DecidableEq

/-- A trip row after the left merge with the zone table (app.py line 46):
the zone columns are null (`none`) when no zone row matched. -/
structure MergedTrip where
  tpep_pickup_datetime : Int
  tpep_dropoff_datetime : Int
  trip_distance : ℚ
  fare_amount : ℚ
  total_amount : ℚ
  payment_type : Int
  PULocationID : Int
  pickup_hour : Int
  pickup_day_of_week : String
  trip_duration_minutes : ℚ
  LocationID : Option Int
  Borough : Option String
  Zone : Option String
  service_zone : Option String
deriving Repr, DecidableEq

/-- One row of the enriched table returned by `load_data`: as `MergedTrip`
but with the payment code replaced by its label (app.py line 54), `none` for
an unmapped code. -/
structure TripRecord where
  tpep_pickup_datetime : Int
  tpep_dropoff_datetime : Int
  trip_distance : ℚ
  fare_amount : ℚ
  total_amount : ℚ
  payment_type : Option String
  PULocationID : Int
  pickup_hour : Int
  pickup_day_of_week : String
  trip_duration_minutes : ℚ
  LocationID : Option Int
  Borough : Option String
  Zone : Option String
  service_zone : Option String
deriving Repr, DecidableEq

/-- Hour-of-day component of a timestamp given in seconds since the epoch
(model of pandas `.dt.hour`, app.py line 39). -/
def hourOfTimestamp (t : Int) : Int :=
  (Int.emod t 86400).ediv 3600

/-- Calendar date of a timestamp, as whole days since the epoch (model of
pandas `.dt.date`, used by the dashboard's date filter, app.py lines 93-94). -/
def dateOfTimestamp (t : Int) : Int :=
  Int.ediv t 86400

/-- Weekday index of a timestamp, Monday = 0 .. Sunday = 6 (the epoch day,
1970-01-01, was a Thursday, index 3); matches pandas `.dt.dayofweek`. -/
def weekdayIndex (t : Int) : Int :=
  Int.emod (dateOfTimestamp t + 3) 7

/-- Weekday names in pandas `dayofweek` order. -/
def dayNames : List String :=
  ["Monday", "Tuesday", "Wednesday", "Thursday", "Friday", "Saturday", "Sunday"]

/-- Model of pandas `.dt.day_name()` (app.py line 40). -/
def day_name (t : Int) : String :=
  dayNames.getD (weekdayIndex t).toNat ""

/-- The payment-code dictionary of app.py lines 48-53 together with the
`.map` semantics of line 54: a code outside the dictionary maps to a null
label (`none`), it does not raise. -/
def payment_map (c : Int) : Option String :=
  if c = 1 then some "Credit Card"
  else if c = 2 then some "Cash"
  else if c = 3 then some "No Charge"
  else if c = 4 then some "Dispute"
  else none

/-- The ways the load step can fail in the model. -/
inductive LoadError where
  | sampleError
  | parseError
deriving Repr, DecidableEq

/-- Model of `df.sample(n, random_state=seed)` (app.py line 28): a
deterministic selection, fixed by the seed, of `n` distinct rows of the
input; pandas raises `ValueError` when `n` exceeds the population (without
replacement).  The Mersenne-Twister permutation itself is abstracted to the
identity-order selection: which particular rows the seed picks is irrelevant
to every property below; what matters is that the selection is a
deterministic function of the seed and the data and returns exactly `n` of
the input rows. -/
def sampleRows (n : Nat) (seed : Nat) (rows : List RawTrip) : Except LoadError (List RawTrip) :=
  if n ≤ rows.length then .ok (rows.take n) else .error .sampleError

/-- `pd.to_datetime` on the two timestamp fields of one row (app.py lines
36-37): fails the load when either field is unparseable. -/
def parseRow (r : RawTrip) : Except LoadError ParsedTrip :=
  match r.tpep_pickup_datetime, r.tpep_dropoff_datetime with
  | some p, some d =>
      .ok { tpep_pickup_datetime := p, tpep_dropoff_datetime := d,
            trip_distance := r.trip_distance, fare_amount := r.fare_amount,
            total_amount := r.total_amount, payment_type := r.payment_type,
            PULocationID := r.PULocationID }
  | _, _ => .error .parseError

/-- The derived columns of app.py lines 39-44: `pickup_hour`,
`pickup_day_of_week` and `trip_duration_minutes` = (dropoff − pickup)
total seconds / 60. -/
def addDerived (p : ParsedTrip) : DerivedTrip :=
  { tpep_pickup_datetime := p.tpep_pickup_datetime,
    tpep_dropoff_datetime := p.tpep_dropoff_datetime,
    trip_distance := p.trip_distance, fare_amount := p.fare_amount,
    total_amount := p.total_amount, payment_type := p.payment_type,
    PULocationID := p.PULocationID,
    pickup_hour := hourOfTimestamp p.tpep_pickup_datetime,
    pickup_day_of_week := day_name p.tpep_pickup_datetime,
    trip_duration_minutes :=
      ((p.tpep_dropoff_datetime - p.tpep_pickup_datetime : Int) : ℚ) / 60 }

/-- The merged row an unmatched trip row receives from the left join: the
trip columns unchanged, the zone columns null. -/
def nullJoin (t : DerivedTrip) : MergedTrip :=
  { tpep_pickup_datetime := t.tpep_pickup_datetime,
    tpep_dropoff_datetime := t.tpep_dropoff_datetime,
    trip_distance := t.trip_distance, fare_amount := t.fare_amount,
    total_amount := t.total_amount, payment_type := t.payment_type,
    PULocationID := t.PULocationID, pickup_hour := t.pickup_hour,
    pickup_day_of_week := t.pickup_day_of_week,
    trip_duration_minutes := t.trip_duration_minutes,
    LocationID := none, Borough := none, Zone := none, service_zone := none }

/-- The merged row a trip row receives from a matching zone row: the trip
columns unchanged, the zone columns filled in. -/
def joinWith (t : DerivedTrip) (z : Zone) : MergedTrip :=
  { tpep_pickup_datetime := t.tpep_pickup_datetime,
    tpep_dropoff_datetime := t.tpep_dropoff_datetime,
    trip_distance := t.trip_distance, fare_amount := t.fare_amount,
    total_amount := t.total_amount, payment_type := t.payment_type,
    PULocationID := t.PULocationID, pickup_hour := t.pickup_hour,
    pickup_day_of_week := t.pickup_day_of_week,
    trip_duration_minutes := t.trip_duration_minutes,
    LocationID := some z.LocationID, Borough := some z.Borough,
    Zone := some z.Zone, service_zone := some z.service_zone }

/-- The rows one trip row contributes to the left merge: one output row per
zone row whose `LocationID` equals the trip's `PULocationID`, or a single
row with null zone columns when none matches. -/
def mergeRow (zones : List Zone) (t : DerivedTrip) : List MergedTrip :=
  match zones.filter (fun z => z.LocationID == t.PULocationID) with
  | [] => [nullJoin t]
  | z :: zs => (z :: zs).map (joinWith t)

/-- `df.merge(zones, left_on="PULocationID", right_on="LocationID",
how="left")` (app.py line 46), preserving the left row order. -/
def mergeZones (rows : List DerivedTrip) (zones : List Zone) : List MergedTrip :=
  match rows with
  | [] => []
  | r :: rs => mergeRow zones r ++ mergeZones rs zones

/-- `df["payment_type"] = df["payment_type"].map(payment_map)` (app.py
line 54), applied after the zone merge. -/
def applyPaymentMap (m : MergedTrip) : TripRecord :=
  { tpep_pickup_datetime := m.tpep_pickup_datetime,
    tpep_dropoff_datetime := m.tpep_dropoff_datetime,
    trip_distance := m.trip_distance, fare_amount := m.fare_amount,
    total_amount := m.total_amount,
    payment_type := payment_map m.payment_type,
    PULocationID := m.PULocationID, pickup_hour := m.pickup_hour,
    pickup_day_of_week := m.pickup_day_of_week,
    trip_duration_minutes := m.trip_duration_minutes,
    LocationID := m.LocationID, Borough := m.Borough, Zone := m.Zone,
    service_zone := m.service_zone }

/-- Column-wise fallible conversion, as `pd.to_datetime` over a whole
column: convert every row, fail on the first unconvertible one. -/
def mapExcept (f : α → Except LoadError β) : List α → Except LoadError (List β)
  | [] => .ok []
  | a :: as =>
    match f a with
    | .error e => .error e
    | .ok b =>
      match mapExcept f as with
      | .error e => .error e
      | .ok bs => .ok (b :: bs)

/-- The full pipeline `load_data` (app.py lines 8-56): sample 150000 rows
with seed 42, drop rows with non-positive distance or fare, parse the
timestamp columns, derive the time columns, left-join the zone table and map
the payment codes. -/
def load_data (src : SourceData) : Except LoadError (List TripRecord) :=
  match sampleRows 150000 42 src.trips with
  | .error e => .error e
  | .ok df =>
    match mapExcept parseRow
        ((df.filter (fun r => decide (0 < r.trip_distance))).filter
          (fun r => decide (0 < r.fare_amount))) with
    | .error e => .error e
    | .ok parsed =>
      .ok ((mergeZones (parsed.map addDerived) src.zones).map applyPaymentMap)

/-- The sampled row set of one invocation (app.py line 28), exposed for the
reproducibility and row-count properties. -/
def sampledRows (src : SourceData) : Except LoadError (List RawTrip) :=
  sampleRows 150000 42 src.trips

/-- The sidebar filter parameters (app.py lines 76-89): a date range, an
hour range and a payment-type selection. -/
structure FilterParams where
  dateLo : Int
  dateHi : Int
  hourLo : Int
  hourHi : Int
  payments : List (Option String)
deriving Repr, DecidableEq

/-- `filtered_df` (app.py lines 92-98): rows of the enriched table within
the date range and hour range whose payment label is a member of the
selection. -/
def filterView (rows : List TripRecord) (p : FilterParams) : List TripRecord :=
  rows.filter (fun r =>
    decide (p.dateLo ≤ dateOfTimestamp r.tpep_pickup_datetime) &&
    decide (dateOfTimestamp r.tpep_pickup_datetime ≤ p.dateHi) &&
    decide (p.hourLo ≤ r.pickup_hour) &&
    decide (r.pickup_hour ≤ p.hourHi) &&
    p.payments.contains r.payment_type)

/-- `groupby(key).size()` over a key column of the enriched table: pandas
excludes rows whose key is null (`dropna=True` default); one (key, count)
pair per distinct non-null key value.  The order of the pairs (pandas sorts
group keys, `value_counts` sorts by count) does not affect any property
below. -/
def groupbySize (key : TripRecord → Option String) (rows : List TripRecord) : List (String × Nat) :=
  (rows.filterMap key).dedup.map
    (fun z => (z, (rows.filter (fun r => key r == some z)).length))

/-- The total of the per-group counts of an aggregation result. -/
def sumCounts (g : List (String × Nat)) : Nat :=
  (g.map Prod.snd).sum

/-- `filtered_df.groupby("Zone").size()` (app.py lines 124-130, before the
presentation-only sort and `head(10)`). -/
def zone_counts (rows : List TripRecord) : List (String × Nat) :=
  groupbySize (fun r => r.Zone) rows

/-- `filtered_df["payment_type"].value_counts()` (app.py lines 208-210,
before the presentation-only sort). -/
def payment_counts (rows : List TripRecord) : List (String × Nat) :=
  groupbySize (fun r => r.payment_type) rows

/-! ### Concrete data for witnesses and counterexamples -/

/-- 2024-01-15 08:30:00 UTC, a Monday, in seconds since the epoch. -/
def tsMonday : Int := 1705307400

/-- A well-formed source row: positive distance and fare, parseable
timestamps, credit-card payment code. -/
def okRow : RawTrip :=
  { tpep_pickup_datetime := some tsMonday,
    tpep_dropoff_datetime := some (tsMonday + 1050),
    trip_distance := 2, fare_amount := 10, total_amount := 12,
    payment_type := 1, PULocationID := 161 }

/-- `okRow` after timestamp parsing. -/
def okParsed : ParsedTrip :=
  { tpep_pickup_datetime := tsMonday, tpep_dropoff_datetime := tsMonday + 1050,
    trip_distance := 2, fare_amount := 10, total_amount := 12,
    payment_type := 1, PULocationID := 161 }


/-- The enriched row `okRow` becomes under an empty zone table. -/
def okRecord : TripRecord := applyPaymentMap (nullJoin (addDerived okParsed))

/-- A source row dropped by cleaning (zero distance) that also has an
unparseable pickup field. -/
def badRow : RawTrip :=
  { tpep_pickup_datetime := none, tpep_dropoff_datetime := some tsMonday,
    trip_distance := 0, fare_amount := 10, total_amount := 10,
    payment_type := 1, PULocationID := 161 }

/-- A source row that survives cleaning but has an unparseable pickup
field. -/
def badClean : RawTrip :=
  { tpep_pickup_datetime := none, tpep_dropoff_datetime := some tsMonday,
    trip_distance := 1, fare_amount := 10, total_amount := 10,
    payment_type := 1, PULocationID := 161 }

/-- A source row whose dropoff precedes its pickup by ten minutes. -/
def negRow : RawTrip :=
  { tpep_pickup_datetime := some (tsMonday + 600),
    tpep_dropoff_datetime := some tsMonday,
    trip_distance := 1, fare_amount := 5, total_amount := 5,
    payment_type := 2, PULocationID := 7 }

/-- `negRow` after timestamp parsing. -/
def negParsed : ParsedTrip :=
  { tpep_pickup_datetime := tsMonday + 600, tpep_dropoff_datetime := tsMonday,
    trip_distance := 1, fare_amount := 5, total_amount := 5,
    payment_type := 2, PULocationID := 7 }


/-- The enriched row `negRow` becomes under an empty zone table. -/
def negRecord : TripRecord := applyPaymentMap (nullJoin (addDerived negParsed))

/-- 150000 copies of `okRow`, empty zone table. -/
def srcOK : SourceData := ⟨List.replicate 150000 okRow, []⟩

/-- `badRow` followed by 149999 copies of `okRow`. -/
def srcBad : SourceData := ⟨badRow :: List.replicate 149999 okRow, []⟩

/-- `badClean` followed by 149999 copies of `okRow`. -/
def srcBadClean : SourceData := ⟨badClean :: List.replicate 149999 okRow, []⟩

/-- 150000 copies of `negRow`, empty zone table. -/
def srcNeg : SourceData := ⟨List.replicate 150000 negRow, []⟩

/-- A concrete sidebar filter selection that keeps every `okRecord` row:
the date range is that single Monday, the hour range is the full day, and
the credit-card label is selected. -/
def params0 : FilterParams :=
  { dateLo := dateOfTimestamp tsMonday, dateHi := dateOfTimestamp tsMonday,
    hourLo := 0, hourHi := 23, payments := [some "Credit Card"] }

/-! ### Structural lemmas about the pipeline steps -/

/-- Inverting a successful `sampleRows`: the sample is the seed-determined
selection of `n` rows and the population was large enough. -/
lemma sampleRows_ok_inv {n seed : Nat} {rows df : List RawTrip}
    (h : sampleRows n seed rows = .ok df) :
    df = rows.take n ∧ n ≤ rows.length := by
  unfold sampleRows at h
  split at h
  · cases h
    exact ⟨rfl, by assumption⟩
  · cases h

/-- A source with exactly 150000 trip rows is sampled whole. -/
lemma sampledRows_of_length {src : SourceData} (h : src.trips.length = 150000) :
    sampledRows src = .ok src.trips := by
  unfold sampledRows sampleRows
  rw [if_pos (by omega), List.take_of_length_le (by omega)]

/-- `parseRow` only ever fails with a parse error. -/
lemma parseRow_error_eq {r : RawTrip} {e : LoadError}
    (h : parseRow r = .error e) : e = .parseError := by
  unfold parseRow at h
  split at h
  · cases h
  · cases h
    rfl

/-- A row with an unparseable timestamp field fails to parse. -/
lemma parseRow_error_of_none {r : RawTrip}
    (h : r.tpep_pickup_datetime = none ∨ r.tpep_dropoff_datetime = none) :
    parseRow r = .error .parseError := by
  unfold parseRow
  split
  · next pt dt hpt hdt =>
    rcases h with h | h
    · rw [h] at hpt
      cases hpt
    · rw [h] at hdt
      cases hdt
  · rfl

/-- Inverting a successful `parseRow`: the parsed row carries the raw row's
columns, with the timestamps being the raw fields' parse results. -/
lemma parseRow_ok_inv {r : RawTrip} {p : ParsedTrip} (h : parseRow r = .ok p) :
    p.trip_distance = r.trip_distance ∧ p.fare_amount = r.fare_amount ∧
    p.total_amount = r.total_amount ∧ p.payment_type = r.payment_type ∧
    p.PULocationID = r.PULocationID ∧
    r.tpep_pickup_datetime = some p.tpep_pickup_datetime ∧
    r.tpep_dropoff_datetime = some p.tpep_dropoff_datetime := by
  unfold parseRow at h
  split at h
  · next pt dt hpt hdt =>
    cases h
    exact ⟨rfl, rfl, rfl, rfl, rfl, hpt, hdt⟩
  · cases h

lemma parseRow_okRow : parseRow okRow = .ok okParsed := rfl

lemma parseRow_negRow : parseRow negRow = .ok negParsed := rfl

/-- A successful column conversion converts every row: each output row is
the conversion of some input row. -/
lemma mapExcept_ok_mem {f : α → Except LoadError β} :
    ∀ {l : List α} {l' : List β}, mapExcept f l = .ok l' →
      ∀ b ∈ l', ∃ a ∈ l, f a = .ok b := by
  intro l
  induction l with
  | nil =>
    intro l' h b hb
    unfold mapExcept at h
    cases h
    cases hb
  | cons a as ih =>
    intro l' h b hb
    unfold mapExcept at h
    split at h
    · cases h
    · next b0 hb0 =>
      split at h
      · cases h
      · next bs hbs =>
        cases h
        rcases List.mem_cons.mp hb with hb2 | hb2
        · exact ⟨a, List.mem_cons_self a as, hb2 ▸ hb0⟩
        · obtain ⟨a2, ha2, hfa2⟩ := ih hbs b hb2
          exact ⟨a2, List.mem_cons_of_mem a ha2, hfa2⟩

/-- A successful column conversion preserves the row count. -/
lemma mapExcept_ok_length {f : α → Except LoadError β} :
    ∀ {l : List α} {l' : List β}, mapExcept f l = .ok l' →
      l'.length = l.length := by
  intro l
  induction l with
  | nil =>
    intro l' h
    unfold mapExcept at h
    cases h
    rfl
  | cons a as ih =>
    intro l' h
    unfold mapExcept at h
    split at h
    · cases h
    · split at h
      · cases h
      · next bs hbs =>
        cases h
        simp [ih hbs]

/-- Converting a constant column succeeds row by row. -/
lemma mapExcept_replicate_ok {f : α → Except LoadError β} {a : α} {b : β}
    (h : f a = .ok b) (n : Nat) :
    mapExcept f (List.replicate n a) = .ok (List.replicate n b) := by
  induction n with
  | zero => rfl
  | succ n ih =>
    rw [List.replicate_succ, List.replicate_succ]
    unfold mapExcept
    rw [h, ih]

/-- If any row of the column fails to parse, the whole conversion fails
with a parse error. -/
lemma mapExcept_parseRow_error {l : List RawTrip} {a : RawTrip} (ha : a ∈ l)
    (hf : a.tpep_pickup_datetime = none ∨ a.tpep_dropoff_datetime = none) :
    mapExcept parseRow l = .error .parseError := by
  induction l with
  | nil => cases ha
  | cons x xs ih =>
    rcases List.mem_cons.mp ha with ha2 | ha2
    · subst ha2
      unfold mapExcept
      rw [parseRow_error_of_none hf]
    · unfold mapExcept
      cases hx : parseRow x with
      | error e => rw [parseRow_error_eq hx]
      | ok p => rw [ih ha2]

/-- Membership in the merged table comes row by row from the left table. -/
lemma mem_mergeZones {rows : List DerivedTrip} {zones : List Zone} {m : MergedTrip} :
    m ∈ mergeZones rows zones ↔ ∃ t ∈ rows, m ∈ mergeRow zones t := by
  induction rows with
  | nil => simp [mergeZones]
  | cons r rs ih =>
    unfold mergeZones
    rw [List.mem_append, ih]
    constructor
    · rintro (hm | ⟨t, ht, hm⟩)
      · exact ⟨r, List.mem_cons_self r rs, hm⟩
      · exact ⟨t, List.mem_cons_of_mem r ht, hm⟩
    · rintro ⟨t, ht, hm⟩
      rcases List.mem_cons.mp ht with rfl | ht2
      · exact Or.inl hm
      · exact Or.inr ⟨t, ht2, hm⟩

/-- Every row produced by `mergeRow` is either the null-zone row or a
`joinWith` of a matching zone row; in both cases the trip columns are those
of the left row. -/
lemma mergeRow_cases {zones : List Zone} {t : DerivedTrip} {m : MergedTrip}
    (h : m ∈ mergeRow zones t) :
    m = nullJoin t ∨ ∃ z ∈ zones, z.LocationID = t.PULocationID ∧ m = joinWith t z := by
  unfold mergeRow at h
  split at h
  · rcases List.mem_singleton.mp h with rfl
    exact Or.inl rfl
  · next z zs heq =>
    rcases List.mem_map.mp h with ⟨z2, hz2, rfl⟩
    have hz2f : z2 ∈ zones.filter (fun z => z.LocationID == t.PULocationID) := heq ▸ hz2
    have := List.mem_filter.mp hz2f
    exact Or.inr ⟨z2, this.1, by simpa using this.2, rfl⟩

/-- `mergeRow` never drops the left row: it always yields at least one row. -/
lemma mergeRow_ne_nil (zones : List Zone) (t : DerivedTrip) :
    mergeRow zones t ≠ [] := by
  unfold mergeRow
  split
  · simp
  · simp

/-- With no zone table, every row merges to its null-zone row. -/
lemma mergeZones_nil (rows : List DerivedTrip) :
    mergeZones rows [] = rows.map nullJoin := by
  induction rows with
  | nil => rfl
  | cons r rs ih =>
    unfold mergeZones
    rw [ih]
    rfl

/-- Inverting a successful `load_data` run into its three stages: the
sample, the cleaned-and-parsed rows, and the merged and labelled table. -/
lemma load_data_ok_iff (src : SourceData) (table : List TripRecord) :
    load_data src = .ok table ↔
      ∃ df parsed,
        sampleRows 150000 42 src.trips = .ok df ∧
        mapExcept parseRow
          ((df.filter (fun r => decide (0 < r.trip_distance))).filter
            (fun r => decide (0 < r.fare_amount))) = .ok parsed ∧
        table = (mergeZones (parsed.map addDerived) src.zones).map applyPaymentMap := by
  unfold load_data
  constructor
  · intro h
    split at h
    · cases h
    · next df hdf =>
      split at h
      · cases h
      · next parsed hp =>
        cases h
        exact ⟨df, parsed, hdf, hp, rfl⟩
  · rintro ⟨df, parsed, hdf, hp, rfl⟩
    split
    · next e he =>
      rw [he] at hdf
      cases hdf
    · next df2 hdf2 =>
      rw [hdf2] at hdf
      cases hdf
      split
      · next e he =>
        rw [he] at hp
        cases hp
      · next parsed2 hp2 =>
        rw [hp2] at hp
        cases hp
        rfl

/-- The error side of `load_data`: a run whose cleaned sample fails to
parse fails with a parse error. -/
lemma load_data_error_of_parse {src : SourceData} {df : List RawTrip}
    (hdf : sampleRows 150000 42 src.trips = .ok df)
    (hp : mapExcept parseRow
      ((df.filter (fun r => decide (0 < r.trip_distance))).filter
        (fun r => decide (0 < r.fare_amount))) = .error .parseError) :
    load_data src = .error .parseError := by
  unfold load_data
  split
  · next e he =>
    rw [he] at hdf
    cases hdf
  · next df2 hdf2 =>
    rw [hdf2] at hdf
    cases hdf
    split
    · next e he =>
      rw [he] at hp
      cases hp
      rfl
    · next parsed2 hp2 =>
      rw [hp2] at hp
      cases hp

/-- Trip columns survive the merge and the labelling unchanged; the payment
label is the mapped payment code. -/
lemma applyPaymentMap_mergeRow_fields {zones : List Zone} {t : DerivedTrip}
    {m : MergedTrip} (hm : m ∈ mergeRow zones t) :
    (applyPaymentMap m).tpep_pickup_datetime = t.tpep_pickup_datetime ∧
    (applyPaymentMap m).tpep_dropoff_datetime = t.tpep_dropoff_datetime ∧
    (applyPaymentMap m).trip_distance = t.trip_distance ∧
    (applyPaymentMap m).fare_amount = t.fare_amount ∧
    (applyPaymentMap m).total_amount = t.total_amount ∧
    (applyPaymentMap m).payment_type = payment_map t.payment_type ∧
    (applyPaymentMap m).PULocationID = t.PULocationID ∧
    (applyPaymentMap m).pickup_hour = t.pickup_hour ∧
    (applyPaymentMap m).pickup_day_of_week = t.pickup_day_of_week ∧
    (applyPaymentMap m).trip_duration_minutes = t.trip_duration_minutes := by
  rcases mergeRow_cases hm with rfl | ⟨z, hz, hzl, rfl⟩ <;>
    simp [applyPaymentMap, nullJoin, joinWith]

/-- Provenance of one output row: it is the labelled merge of a derived row
whose parsed source row passed both cleaning filters and came from the
sampled source data. -/
lemma load_data_row {src : SourceData} {table : List TripRecord} {r : TripRecord}
    (h : load_data src = .ok table) (hr : r ∈ table) :
    ∃ raw ∈ src.trips, ∃ p : ParsedTrip,
      parseRow raw = .ok p ∧ 0 < raw.trip_distance ∧ 0 < raw.fare_amount ∧
      ∃ m ∈ mergeRow src.zones (addDerived p), r = applyPaymentMap m := by
  obtain ⟨df, parsed, hdf, hp, rfl⟩ := (load_data_ok_iff src table).mp h
  rcases List.mem_map.mp hr with ⟨m, hm, rfl⟩
  rcases mem_mergeZones.mp hm with ⟨t, ht, hmt⟩
  rcases List.mem_map.mp ht with ⟨p, hp2, rfl⟩
  obtain ⟨raw, hraw, hparse⟩ := mapExcept_ok_mem hp p hp2
  have hraw1 := List.mem_filter.mp hraw
  have hraw2 := List.mem_filter.mp hraw1.1
  refine ⟨raw, ?_, p, hparse, ?_, ?_, m, hmt, rfl⟩
  · have hdf2 := sampleRows_ok_inv hdf
    exact List.take_subset 150000 src.trips (hdf2.1 ▸ hraw2.1)
  · simpa using hraw2.2
  · simpa using hraw1.2

/-- The column relations every row of a successful `load_data` output
satisfies. -/
lemma load_data_row_spec {src : SourceData} {table : List TripRecord}
    {r : TripRecord} (h : load_data src = .ok table) (hr : r ∈ table) :
    0 < r.trip_distance ∧ 0 < r.fare_amount ∧
    r.pickup_hour = hourOfTimestamp r.tpep_pickup_datetime ∧
    r.pickup_day_of_week = day_name r.tpep_pickup_datetime ∧
    r.trip_duration_minutes =
      ((r.tpep_dropoff_datetime - r.tpep_pickup_datetime : Int) : ℚ) / 60 ∧
    ∃ c : Int, r.payment_type = payment_map c := by
  obtain ⟨raw, hraw, p, hparse, hdist, hfare, m, hm, rfl⟩ := load_data_row h hr
  obtain ⟨h1, h2, h3, h4, h5, h6, h7, h8, h9, h10⟩ :=
    applyPaymentMap_mergeRow_fields hm
  obtain ⟨g1, g2, g3, g4, g5, g6, g7⟩ := parseRow_ok_inv hparse
  refine ⟨?_, ?_, ?_, ?_, ?_, p.payment_type, ?_⟩
  · rw [h3]
    simp only [addDerived]
    rw [g1]
    exact hdist
  · rw [h4]
    simp only [addDerived]
    rw [g2]
    exact hfare
  · rw [h8, h1]
    simp [addDerived]
  · rw [h9, h1]
    simp [addDerived]
  · rw [h10, h1, h2]
    simp [addDerived]
  · rw [h6]
    simp [addDerived]

/-- Evaluating the pipeline on a constant 150000-row source with an empty
zone table. -/
lemma load_data_replicate {r : RawTrip} {p : ParsedTrip}
    (hp : parseRow r = .ok p) (hd : 0 < r.trip_distance)
    (hf : 0 < r.fare_amount) :
    load_data ⟨List.replicate 150000 r, []⟩ =
      .ok (List.replicate 150000 (applyPaymentMap (nullJoin (addDerived p)))) := by
  rw [load_data_ok_iff]
  refine ⟨List.replicate 150000 r, List.replicate 150000 p, ?_, ?_, ?_⟩
  · show sampleRows 150000 42 (List.replicate 150000 r) = _
    unfold sampleRows
    rw [if_pos]
    · rw [List.take_replicate, Nat.min_self]
    · rw [List.length_replicate]
  · rw [List.filter_replicate_of_pos (by simpa using hd),
      List.filter_replicate_of_pos (by simpa using hf)]
    exact mapExcept_replicate_ok hp 150000
  · show _ = (mergeZones ((List.replicate 150000 p).map addDerived) []).map applyPaymentMap
    rw [List.map_replicate, mergeZones_nil, List.map_replicate, List.map_replicate]

lemma load_data_srcOK : load_data srcOK = .ok (List.replicate 150000 okRecord) :=
  load_data_replicate parseRow_okRow (by norm_num [okRow]) (by norm_num [okRow])

lemma load_data_srcNeg : load_data srcNeg = .ok (List.replicate 150000 negRecord) :=
  load_data_replicate parseRow_negRow (by norm_num [negRow]) (by norm_num [negRow])

/-- The bad row of `srcBad` is dropped by the distance filter before the
timestamp parse is reached, so the load succeeds. -/
lemma load_data_srcBad : load_data srcBad = .ok (List.replicate 149999 okRecord) := by
  rw [load_data_ok_iff]
  refine ⟨badRow :: List.replicate 149999 okRow, List.replicate 149999 okParsed, ?_, ?_, ?_⟩
  · show sampleRows 150000 42 (badRow :: List.replicate 149999 okRow) = _
    unfold sampleRows
    rw [if_pos]
    · rw [List.take_of_length_le]
      rw [List.length_cons, List.length_replicate]
    · rw [List.length_cons, List.length_replicate]
  · rw [List.filter_cons_of_neg (by norm_num [badRow]),
      List.filter_replicate_of_pos (by norm_num [okRow]),
      List.filter_replicate_of_pos (by norm_num [okRow])]
    exact mapExcept_replicate_ok parseRow_okRow 149999
  · show _ = (mergeZones ((List.replicate 149999 okParsed).map addDerived) []).map applyPaymentMap
    rw [List.map_replicate, mergeZones_nil, List.map_replicate, List.map_replicate]
    rfl

/-! ### Row counts under a duplicate-free zone key column -/

/-- Under a duplicate-free zone key column, at most one zone row matches a
given location id. -/
lemma filter_locationId_length_le_one {zones : List Zone}
    (h : (zones.map Zone.LocationID).Nodup) (x : Int) :
    (zones.filter (fun z => z.LocationID == x)).length ≤ 1 := by
  induction zones with
  | nil => simp
  | cons z zs ih =>
    rw [List.map_cons, List.nodup_cons] at h
    rw [List.filter_cons]
    split
    · next hzx =>
      have hnil : zs.filter (fun z2 => z2.LocationID == x) = [] := by
        rw [List.filter_eq_nil_iff]
        intro z2 hz2 hz2x
        apply h.1
        have h1 : z2.LocationID = x := by simpa using hz2x
        have h2 : z.LocationID = x := by simpa using hzx
        rw [List.mem_map]
        exact ⟨z2, hz2, by rw [h1, h2]⟩
      rw [hnil]
      simp
    · exact ih h.2

/-- Under a duplicate-free zone key column the left merge contributes
exactly one row per left row. -/
lemma mergeRow_length_of_nodup {zones : List Zone}
    (h : (zones.map Zone.LocationID).Nodup) (t : DerivedTrip) :
    (mergeRow zones t).length = 1 := by
  unfold mergeRow
  split
  · rfl
  · next z zs heq =>
    have h1 := filter_locationId_length_le_one h t.PULocationID
    rw [heq, List.length_cons] at h1
    rw [List.length_map, List.length_cons]
    omega

/-- Under a duplicate-free zone key column the left merge preserves the row
count. -/
lemma mergeZones_length_of_nodup {zones : List Zone}
    (h : (zones.map Zone.LocationID).Nodup) (rows : List DerivedTrip) :
    (mergeZones rows zones).length = rows.length := by
  induction rows with
  | nil => rfl
  | cons r rs ih =>
    unfold mergeZones
    rw [List.length_append, ih, mergeRow_length_of_nodup h, List.length_cons]
    omega

/-! ### Group counts -/

/-- Counting a non-null key value through the non-null projection. -/
lemma count_filterMap_id (ks : List (Option String)) (z : String) :
    (ks.filterMap id).count z = ks.count (some z) := by
  induction ks with
  | nil => rfl
  | cons k ks ih =>
    cases k <;>
      simp [List.filterMap_cons, List.count_cons, ih, beq_iff_eq]

/-- The non-null projection of an option column has one entry per non-null
row. -/
lemma length_filterMap_id (ks : List (Option String)) :
    (ks.filterMap id).length = (ks.filter (fun k => k.isSome)).length := by
  induction ks with
  | nil => rfl
  | cons k ks ih =>
    cases k <;> simp [List.filterMap_cons, List.filter_cons, ih]

/-- The per-group counts of a grouping sum to the number of rows with a
non-null key: the grouping discards null-keyed rows, nothing else. -/
lemma sumCounts_groupbySize (key : TripRecord → Option String)
    (rows : List TripRecord) :
    sumCounts (groupbySize key rows) =
      (rows.filter (fun r => (key r).isSome)).length := by
  unfold sumCounts groupbySize
  rw [List.map_map]
  have h1 : rows.filterMap key = (rows.map key).filterMap id := by
    rw [List.filterMap_map]
    rfl
  have h2 : ∀ z : String, (rows.filter (fun r => key r == some z)).length =
      ((rows.map key).filterMap id).count z := by
    intro z
    rw [count_filterMap_id, List.count_eq_countP, List.countP_map,
      ← List.countP_eq_length_filter]
    rfl
  rw [h1]
  have h4 : ∀ z ∈ ((rows.map key).filterMap id).dedup,
      (Prod.snd ∘ fun z => (z, (rows.filter (fun r => key r == some z)).length)) z =
      ((rows.map key).filterMap id).count z := fun z _ => h2 z
  rw [List.map_congr_left h4]
  rw [List.sum_map_count_dedup_eq_length, length_filterMap_id]
  rw [← List.countP_eq_length_filter, ← List.countP_eq_length_filter,
    List.countP_map]
  rfl

/-- `params0` keeps every `okRecord` row. -/
lemma filterView_replicate_okRecord :
    filterView (List.replicate 150000 okRecord) params0 =
      List.replicate 150000 okRecord := by
  unfold filterView
  exact List.filter_replicate_of_pos (by decide)

/-- Every `okRecord` row has a null zone column, so the zone grouping of
such a view is empty. -/
lemma zone_counts_okRecord_sum :
    sumCounts (zone_counts (List.replicate 150000 okRecord)) = 0 := by
  unfold zone_counts
  rw [sumCounts_groupbySize]
  rw [List.filter_replicate_of_neg (by decide)]
  rfl

/-! ### The claims -/

/-- C1: every row of the enriched table returned by `load_data` has
`trip_distance > 0` and `fare_amount > 0`; a source row violating either
condition is dropped by the cleaning filters and never reaches the
output. -/
theorem trip_rows_positive (src : SourceData) (table : List TripRecord)
    (h : load_data src = .ok table) :
    ∀ r ∈ table, 0 < r.trip_distance ∧ 0 < r.fare_amount := by
  intro r hr
  have hs := load_data_row_spec h hr
  exact ⟨hs.1, hs.2.1⟩

theorem trip_rows_positive_witness :
    0 < okRecord.trip_distance ∧ 0 < okRecord.fare_amount :=
  trip_rows_positive srcOK (List.replicate 150000 okRecord) load_data_srcOK
    okRecord (List.mem_replicate.mpr ⟨by omega, rfl⟩)

/-- C3: for every row of the enriched table, `trip_duration_minutes` is the
timestamp difference in seconds divided by 60; and nothing bounds the value,
there are runs whose output contains a negative duration. -/
theorem trip_duration_minutes_spec :
    (∀ (src : SourceData) (table : List TripRecord), load_data src = .ok table →
      ∀ r ∈ table, r.trip_duration_minutes =
        ((r.tpep_dropoff_datetime - r.tpep_pickup_datetime : Int) : ℚ) / 60) ∧
    ∃ (src : SourceData) (table : List TripRecord) (r : TripRecord),
      load_data src = .ok table ∧ r ∈ table ∧ r.trip_duration_minutes < 0 := by
  constructor
  · intro src table h r hr
    exact (load_data_row_spec h hr).2.2.2.2.1
  · refine ⟨srcNeg, List.replicate 150000 negRecord, negRecord, load_data_srcNeg,
      List.mem_replicate.mpr ⟨by omega, rfl⟩, ?_⟩
    show negRecord.trip_duration_minutes < 0
    norm_num [negRecord, applyPaymentMap, nullJoin, addDerived, negParsed, tsMonday]

theorem trip_duration_minutes_spec_witness :
    okRecord.trip_duration_minutes =
      ((okRecord.tpep_dropoff_datetime - okRecord.tpep_pickup_datetime : Int) : ℚ) / 60 :=
  trip_duration_minutes_spec.1 srcOK (List.replicate 150000 okRecord)
    load_data_srcOK okRecord (List.mem_replicate.mpr ⟨by omega, rfl⟩)

/-- C4: the payment-type mapping sends 1 to "Credit Card", 2 to "Cash",
3 to "No Charge", 4 to "Dispute", and every other code to a null label
rather than raising. -/
theorem payment_map_spec :
    payment_map 1 = some "Credit Card" ∧ payment_map 2 = some "Cash" ∧
    payment_map 3 = some "No Charge" ∧ payment_map 4 = some "Dispute" ∧
    ∀ c : Int, c ≠ 1 → c ≠ 2 → c ≠ 3 → c ≠ 4 → payment_map c = none := by
  refine ⟨by decide, by decide, by decide, by decide, ?_⟩
  intro c h1 h2 h3 h4
  simp [payment_map, h1, h2, h3, h4]

theorem payment_map_spec_witness : payment_map 0 = none :=
  payment_map_spec.2.2.2.2 0 (by decide) (by decide) (by decide) (by decide)

/-- C5: the zone join is left-outer: every trip row present before the join
appears in the joined output with its trip columns unchanged, and a row
whose pickup location id matches no zone row gets null zone columns instead
of being dropped. -/
theorem left_join_complete (rows : List DerivedTrip) (zones : List Zone)
    (t : DerivedTrip) (ht : t ∈ rows) :
    ∃ m ∈ mergeZones rows zones,
      (m.tpep_pickup_datetime = t.tpep_pickup_datetime ∧
       m.tpep_dropoff_datetime = t.tpep_dropoff_datetime ∧
       m.trip_distance = t.trip_distance ∧
       m.fare_amount = t.fare_amount ∧
       m.total_amount = t.total_amount ∧
       m.payment_type = t.payment_type ∧
       m.PULocationID = t.PULocationID ∧
       m.pickup_hour = t.pickup_hour ∧
       m.pickup_day_of_week = t.pickup_day_of_week ∧
       m.trip_duration_minutes = t.trip_duration_minutes) ∧
      ((∀ z ∈ zones, z.LocationID ≠ t.PULocationID) →
        m.LocationID = none ∧ m.Borough = none ∧ m.Zone = none ∧
        m.service_zone = none) := by
  cases hfil : zones.filter (fun z => z.LocationID == t.PULocationID) with
  | nil =>
    refine ⟨nullJoin t, ?_, ?_, ?_⟩
    · refine mem_mergeZones.mpr ⟨t, ht, ?_⟩
      unfold mergeRow
      rw [hfil]
      exact List.mem_singleton_self _
    · exact ⟨rfl, rfl, rfl, rfl, rfl, rfl, rfl, rfl, rfl, rfl⟩
    · intro _
      exact ⟨rfl, rfl, rfl, rfl⟩
  | cons z zs =>
    refine ⟨joinWith t z, ?_, ?_, ?_⟩
    · refine mem_mergeZones.mpr ⟨t, ht, ?_⟩
      unfold mergeRow
      rw [hfil]
      exact List.mem_map_of_mem _ (List.mem_cons_self _ _)
    · exact ⟨rfl, rfl, rfl, rfl, rfl, rfl, rfl, rfl, rfl, rfl⟩
    · intro hno
      exfalso
      have hz : z ∈ zones.filter (fun z2 => z2.LocationID == t.PULocationID) := by
        rw [hfil]
        exact List.mem_cons_self _ _
      have hz2 := List.mem_filter.mp hz
      exact hno z hz2.1 (by simpa using hz2.2)

theorem left_join_complete_witness :
    ∃ m ∈ mergeZones [addDerived okParsed] [], m.Zone = none := by
  obtain ⟨m, hm, _, hnull⟩ :=
    left_join_complete [addDerived okParsed] [] (addDerived okParsed)
      (List.mem_singleton_self _)
  exact ⟨m, hm, (hnull (by intro z hz; cases hz)).2.2.1⟩

/-- C6: under the real zone lookup's duplicate-free location ids, the table
returned by `load_data` has at most 150000 rows, and no more rows than the
sampled input has after the two cleaning filters. -/
theorem output_row_count_bound (src : SourceData) (df : List RawTrip)
    (table : List TripRecord)
    (hnd : (src.zones.map Zone.LocationID).Nodup)
    (hs : sampledRows src = .ok df) (h : load_data src = .ok table) :
    table.length ≤ 150000 ∧
    table.length ≤ ((df.filter (fun r => decide (0 < r.trip_distance))).filter
      (fun r => decide (0 < r.fare_amount))).length := by
  obtain ⟨df2, parsed, hdf2, hp, rfl⟩ := (load_data_ok_iff src table).mp h
  unfold sampledRows at hs
  rw [hs] at hdf2
  cases hdf2
  have hlen : ((mergeZones (parsed.map addDerived) src.zones).map
      applyPaymentMap).length =
      ((df.filter (fun r => decide (0 < r.trip_distance))).filter
        (fun r => decide (0 < r.fare_amount))).length := by
    rw [List.length_map, mergeZones_length_of_nodup hnd, List.length_map,
      mapExcept_ok_length hp]
  constructor
  · rw [hlen]
    have h1 := List.length_filter_le (fun r => decide (0 < r.fare_amount))
      (df.filter (fun r => decide (0 < r.trip_distance)))
    have h2 := List.length_filter_le (fun r => decide (0 < r.trip_distance)) df
    have h3 : df.length ≤ 150000 := by
      obtain ⟨rfl, _⟩ := sampleRows_ok_inv hs
      rw [List.length_take]
      omega
    omega
  · rw [hlen]

theorem output_row_count_bound_witness :
    (List.replicate 150000 okRecord).length ≤ 150000 :=
  (output_row_count_bound srcOK (List.replicate 150000 okRow)
    (List.replicate 150000 okRecord) List.nodup_nil
    (sampledRows_of_length (by
      show (List.replicate 150000 okRow).length = 150000
      rw [List.length_replicate]))
    load_data_srcOK).1

/-- C7: for every row of the enriched table, `pickup_hour` is the hour
component of the pickup timestamp, hence lies in [0, 23], and
`pickup_day_of_week` is the weekday name of that timestamp. -/
theorem pickup_hour_day_spec (src : SourceData) (table : List TripRecord)
    (h : load_data src = .ok table) :
    ∀ r ∈ table,
      r.pickup_hour = hourOfTimestamp r.tpep_pickup_datetime ∧
      0 ≤ r.pickup_hour ∧ r.pickup_hour ≤ 23 ∧
      r.pickup_day_of_week = day_name r.tpep_pickup_datetime := by
  intro r hr
  have hs := load_data_row_spec h hr
  refine ⟨hs.2.2.1, ?_, ?_, hs.2.2.2.1⟩
  · rw [hs.2.2.1]
    show 0 ≤ (r.tpep_pickup_datetime % 86400) / 3600
    omega
  · rw [hs.2.2.1]
    show (r.tpep_pickup_datetime % 86400) / 3600 ≤ 23
    omega

theorem pickup_hour_day_spec_witness :
    okRecord.pickup_hour = hourOfTimestamp okRecord.tpep_pickup_datetime ∧
    0 ≤ okRecord.pickup_hour ∧ okRecord.pickup_hour ≤ 23 ∧
    okRecord.pickup_day_of_week = day_name okRecord.tpep_pickup_datetime :=
  pickup_hour_day_spec srcOK (List.replicate 150000 okRecord) load_data_srcOK
    okRecord (List.mem_replicate.mpr ⟨by omega, rfl⟩)

/-- C8: `load_data` is deterministic in its source data: two invocations
against the same fixed source data (the seed is the fixed constant 42)
yield the same sampled row set and the same enriched table. -/
theorem load_data_deterministic (src1 src2 : SourceData) (h : src1 = src2) :
    sampledRows src1 = sampledRows src2 ∧ load_data src1 = load_data src2 := by
  subst h
  exact ⟨rfl, rfl⟩

theorem load_data_deterministic_witness :
    sampledRows srcOK = sampledRows srcOK ∧ load_data srcOK = load_data srcOK :=
  load_data_deterministic srcOK srcOK rfl

/-- C10: in the table returned by `load_data` the payment column holds only
the four labels or the null label: the integer codes are mapped away by the
final step, after the zone join. -/
theorem payment_labels_only (src : SourceData) (table : List TripRecord)
    (h : load_data src = .ok table) :
    ∀ r ∈ table,
      r.payment_type = none ∨ r.payment_type = some "Credit Card" ∨
      r.payment_type = some "Cash" ∨ r.payment_type = some "No Charge" ∨
      r.payment_type = some "Dispute" := by
  intro r hr
  obtain ⟨c, hc⟩ := (load_data_row_spec h hr).2.2.2.2.2
  rw [hc]
  unfold payment_map
  split_ifs <;> simp

theorem payment_labels_only_witness :
    okRecord.payment_type = none ∨ okRecord.payment_type = some "Credit Card" ∨
    okRecord.payment_type = some "Cash" ∨
    okRecord.payment_type = some "No Charge" ∨
    okRecord.payment_type = some "Dispute" :=
  payment_labels_only srcOK (List.replicate 150000 okRecord) load_data_srcOK
    okRecord (List.mem_replicate.mpr ⟨by omega, rfl⟩)

/-- C2 as stated is false on the code: the grouping operations drop null
keys, so a view containing rows with a null zone (an unmatched pickup
location id) makes the zone group counts sum to less than the view's row
count. -/
theorem aggregation_totals_counterexample :
    ¬ (∀ (src : SourceData) (table : List TripRecord) (p : FilterParams),
        load_data src = .ok table →
        sumCounts (zone_counts (filterView table p)) =
          (filterView table p).length ∧
        sumCounts (payment_counts (filterView table p)) =
          (filterView table p).length) := by
  intro hcl
  have h := (hcl srcOK (List.replicate 150000 okRecord) params0
    load_data_srcOK).1
  rw [filterView_replicate_okRecord, zone_counts_okRecord_sum,
    List.length_replicate] at h
  omega

/-- C2 amended: for every filtered view of the enriched table, the zone
group counts sum to the number of view rows with a non-null zone, and the
payment group counts sum to the number of view rows with a non-null payment
label; rows with a null grouping key are excluded by the grouping
operations. -/
theorem aggregation_totals_nonnull (src : SourceData) (table : List TripRecord)
    (h : load_data src = .ok table) (p : FilterParams) :
    sumCounts (zone_counts (filterView table p)) =
      ((filterView table p).filter (fun r => r.Zone.isSome)).length ∧
    sumCounts (payment_counts (filterView table p)) =
      ((filterView table p).filter (fun r => r.payment_type.isSome)).length :=
  ⟨sumCounts_groupbySize _ _, sumCounts_groupbySize _ _⟩

theorem aggregation_totals_nonnull_witness :
    sumCounts (zone_counts (filterView (List.replicate 150000 okRecord) params0)) =
      ((filterView (List.replicate 150000 okRecord) params0).filter
        (fun r => r.Zone.isSome)).length :=
  (aggregation_totals_nonnull srcOK (List.replicate 150000 okRecord)
    load_data_srcOK params0).1

/-- C9 as stated is false on the code: the cleaning filters run before the
timestamp parse, so an unparseable timestamp on a sampled row that cleaning
drops never reaches the parse and the load succeeds. -/
theorem parse_error_counterexample :
    ¬ (∀ (src : SourceData) (rows : List RawTrip),
        sampledRows src = .ok rows →
        (∃ r ∈ rows, r.tpep_pickup_datetime = none ∨
          r.tpep_dropoff_datetime = none) →
        ∃ e, load_data src = .error e) := by
  intro hcl
  have hlen : srcBad.trips.length = 150000 := by
    show (badRow :: List.replicate 149999 okRow).length = 150000
    rw [List.length_cons, List.length_replicate]
  obtain ⟨e, he⟩ := hcl srcBad (badRow :: List.replicate 149999 okRow)
    (sampledRows_of_length hlen)
    ⟨badRow, List.mem_cons_self _ _, Or.inl rfl⟩
  rw [load_data_srcBad] at he
  cases he

/-- C9 amended: if any pickup or dropoff field of a sampled row that
survives the cleaning filters is unparseable, `load_data` fails with a
parse error and returns no table. -/
theorem parse_error_fatal (src : SourceData) (rows : List RawTrip)
    (hs : sampledRows src = .ok rows)
    (hbad : ∃ r ∈ (rows.filter (fun x => decide (0 < x.trip_distance))).filter
        (fun x => decide (0 < x.fare_amount)),
      r.tpep_pickup_datetime = none ∨ r.tpep_dropoff_datetime = none) :
    load_data src = .error .parseError := by
  obtain ⟨r, hr, hnone⟩ := hbad
  unfold sampledRows at hs
  exact load_data_error_of_parse hs (mapExcept_parseRow_error hr hnone)

theorem parse_error_fatal_witness : load_data srcBadClean = .error .parseError :=
  parse_error_fatal srcBadClean (badClean :: List.replicate 149999 okRow)
    (sampledRows_of_length (by
      show (badClean :: List.replicate 149999 okRow).length = 150000
      rw [List.length_cons, List.length_replicate]))
    ⟨badClean,
      List.mem_filter.mpr
        ⟨List.mem_filter.mpr ⟨List.mem_cons_self _ _, by decide⟩, by decide⟩,
      Or.inl rfl⟩
